import Mathlib

/-!
Verification of the turn-orchestration pipeline of `src/app.py`
(Stoic Voice Chat).

The Python module is shallowly embedded: each pipeline function
(`llm`, `downsample`, `text_to_speech`, `handle_audio`, `handle_text`)
becomes a Lean function.  The external capabilities (the OpenAI chat
completion, the Whisper transcription, the pydub decoder, the HTTP post
to ElevenLabs) are opaque remote calls in the source, so they are taken
as function parameters; a Python exception raised by a capability is an
`Except.error`, a `None`/falsy result is `Option.none`.  File-system
side effects of `handle_audio` (the temp file created by `downsample`
via `export`, the mp3 written by `text_to_speech`, and the `os.remove`
calls) are tracked explicitly: the result records which transient files
still exist when the call returns.
-/

namespace Plato

/-- Role of a chat message, mirroring the role field of the dicts
built in `llm` (system, user, assistant). -/
inductive Role where
  | system
  | user
  | assistant
deriving DecidableEq, Repr

/-- A chat message with a role and a content string, as built in `llm`. -/
structure ChatMsg where
  role : Role
  content : String
deriving DecidableEq, Repr

/-- A conversation turn: the `(user_utterance, assistant_utterance)`
pair appended to `hist` by `handle_text` / `handle_audio`. -/
abbrev Turn := String × String

/-- The conversation history: the ordered list of turns (the `hist`
list threaded through the Gradio callbacks). -/
abbrev History := List Turn

/-- The exception kinds a capability call can raise inside the
pipeline.  In the source these are ordinary Python exceptions
(pydub decode errors, OpenAI API errors); `handle_audio` catches them
all with one bare `except Exception`. -/
inductive PipelineError where
  | unsupportedAudioFormat
  | transcriptionFailed
  | generationFailed
deriving DecidableEq, Repr

/-- The Python `str.strip()` operation: drop leading and trailing whitespace.
Defined over the character list so that it evaluates in the kernel
(`String.trim` of core is equivalent but does not reduce). -/
def strip (s : String) : String :=
  String.mk (((s.data.dropWhile Char.isWhitespace).reverse.dropWhile
    Char.isWhitespace).reverse)

/-- The persona system prompt `SYSTEM` of `src/app.py` (lines 20-22). -/
def SYSTEM : String :=
  "You are a wise Stoic philosopher and mentor. Draw from the teachings of Marcus Aurelius, Epictetus, and Seneca. \nProvide practical wisdom and guidance rooted in Stoic principles. Keep responses concise but profound, \nhelping users apply ancient wisdom to modern challenges."

/-- The message-list construction of `llm` (lines 29-31):
start from `[system]`, extend with a user/assistant pair for each prior
turn in order, then append the new user message. -/
def buildMsgs (msg : String) (hist : History) : List ChatMsg :=
  let msgs := hist.foldl
    (fun acc t => acc ++ [ChatMsg.mk Role.user t.1, ChatMsg.mk Role.assistant t.2])
    [ChatMsg.mk Role.system SYSTEM]
  msgs ++ [ChatMsg.mk Role.user msg]

/-- Embedding of `llm(msg, hist)` (lines 28-32).  `complete` is the language-generation
capability (`client.chat.completions.create`, returning the content of
the single top choice, or raising).  On success the content is
`.strip()`ped; an exception propagates to the caller. -/
def llm (complete : List ChatMsg → Except PipelineError String)
    (msg : String) (hist : History) : Except PipelineError String :=
  (complete (buildMsgs msg hist)).map strip

/-- The decoded-audio value handled by pydub: only the format metadata
matters to the spec (channel count, frame rate). -/
structure AudioSegment where
  channels : Nat
  frameRate : Nat
deriving DecidableEq, Repr

/-- The `AudioSegment.set_channels` call as used in `downsample`. -/
def set_channels (n : Nat) (s : AudioSegment) : AudioSegment :=
  AudioSegment.mk n s.frameRate

/-- The `AudioSegment.set_frame_rate` call as used in `downsample`. -/
def set_frame_rate (r : Nat) (s : AudioSegment) : AudioSegment :=
  AudioSegment.mk s.channels r

/-- Embedding of `downsample(fp)` (lines 35-40): decode the input file
(`AudioSegment.from_file`, which raises on an undecodable source),
then force mono and a 16 kHz frame rate.  The decoder is the
parameter `from_file`; the exported segment is returned (the source
returns the path of the exported wav file; the file bookkeeping is
done in `handle_audio` below). -/
def downsample (from_file : String → Except PipelineError AudioSegment)
    (fp : String) : Except PipelineError AudioSegment :=
  (from_file fp).map (fun seg => set_frame_rate 16000 (set_channels 1 seg))

/-- Embedding of `text_to_speech(text)` (lines 42-82).  `key` is
`ELEVENLABS_API_KEY` (`os.getenv` result: `none` when unset; the
source treats the empty string as unset too, via `if not`).
`post` is `requests.post`: `none` models a raised exception or
timeout, `some (status, content)` a response.  `outName` is the
temp-file name the mp3 is written to on a 200 response.  Every failure
path returns `none`; the function never raises (the embedding is a
total function into `Option`). -/
def text_to_speech (key : Option String)
    (post : String → Option (Nat × String))
    (outName : String) (text : String) : Option String :=
  if (key.getD ("")).isEmpty then
    none
  else
    match post text with
    | none => none
    | some st => if st.1 = 200 then some outName else none

/-- The fixed fallback turn appended by `handle_audio` when the
pipeline raises (line 115). -/
def fallbackTurn : Turn :=
  ("Audio processing failed",
   "I apologize, but I couldn\x27t process your audio. Please try again.")

/-- Result of one `handle_audio` call: the returned history, the
returned audio (mp3 path or `None`), and the transient files that
still exist on the file system when the call returns. -/
structure AudioOutcome where
  hist : Option History
  audio : Option String
  tempFiles : List String
deriving DecidableEq, Repr

/-- Embedding of `handle_audio(file, hist, speak_enabled)` (lines 84-117).
Control flow mirrored from the source:
* falsy `file` → return `(hist, None)` unchanged (no temp file);
* `hist = hist or []`;
* inside `try`: `downsample` (a decode error raises before the wav
  file `normName` is exported), then transcription, then
  - blank transcript: remove the wav file, fall through to
    `return hist, None`;
  - otherwise `llm`, append `(txt, ans)`, optionally synthesize,
    remove the wav file, return;
* `except Exception`: append the fallback turn and return
  `(hist, None)` — note the handler does NOT remove the wav file.
`tts ans = some p` means `text_to_speech` wrote the file `p` (it only
returns a path it has just written); that file is never removed here. -/
def handle_audio (from_file : String → Except PipelineError AudioSegment)
    (transcribe : AudioSegment → Except PipelineError String)
    (complete : List ChatMsg → Except PipelineError String)
    (tts : String → Option String)
    (normName : String)
    (file : Option String) (hist : Option History) (speak_enabled : Bool) :
    AudioOutcome :=
  match file with
  | none => AudioOutcome.mk hist none []
  | some fp =>
    let h := hist.getD []
    match downsample from_file fp with
    | Except.error _ => AudioOutcome.mk (some (h ++ [fallbackTurn])) none []
    | Except.ok seg =>
      match transcribe seg with
      | Except.error _ => AudioOutcome.mk (some (h ++ [fallbackTurn])) none [normName]
      | Except.ok txt =>
        if (strip txt).isEmpty then
          AudioOutcome.mk (some h) none []
        else
          match llm complete txt h with
          | Except.error _ =>
            AudioOutcome.mk (some (h ++ [fallbackTurn])) none [normName]
          | Except.ok ans =>
            let audio := if speak_enabled then tts ans else none
            AudioOutcome.mk (some (h ++ [(txt, ans)])) audio audio.toList

/-- Embedding of `handle_text(q, hist, speak_enabled)` (lines 119-131).
Blank input (`not q.strip()`) returns the history unchanged with empty box text and null audio;
otherwise `hist = hist or []`, `llm` is called OUTSIDE any
`try` — an exception from it propagates to the caller
(`Except.error`) with the history unmodified — and on success the
turn is appended and optional speech synthesized. -/
def handle_text (complete : List ChatMsg → Except PipelineError String)
    (tts : String → Option String)
    (q : String) (hist : Option History) (speak_enabled : Bool) :
    Except PipelineError (Option History × String × Option String) :=
  if (strip q).isEmpty then
    Except.ok (hist, "", none)
  else
    let h := hist.getD []
    (llm complete q h).map (fun ans =>
      (some (h ++ [(q, ans)]), "", if speak_enabled then tts ans else none))

/-! ## Theorems -/

/-- Helper: the `foldl` of `buildMsgs` appends the per-turn message
pairs, in history order, after any initial message list. -/
theorem buildMsgs_foldl_eq (hist : History) (init : List ChatMsg) :
    hist.foldl
        (fun acc t => acc ++ [ChatMsg.mk Role.user t.1, ChatMsg.mk Role.assistant t.2])
        init
      = init ++ hist.flatMap
          (fun t => [ChatMsg.mk Role.user t.1, ChatMsg.mk Role.assistant t.2]) := by
  induction hist generalizing init with
  | nil => simp
  | cons t ts ih => simp [ih, List.append_assoc]

/-- C1: for any text input whose stripped form is non-empty, when the
generation capability succeeds, `handle_text` appends exactly one turn
whose first field is the input text and whose second field is the
generated reply; with speech disabled the returned audio is the `tts`
result only when enabled (in particular `none` when disabled). -/
theorem C1_submitText_appends_one_turn
    (complete : List ChatMsg → Except PipelineError String)
    (tts : String → Option String)
    (q : String) (hist : Option History) (speak : Bool) (r : String)
    (hq : (strip q).isEmpty = false)
    (hr : llm complete q (hist.getD []) = Except.ok r) :
    handle_text complete tts q hist speak
      = Except.ok (some (hist.getD [] ++ [(q, r)]), "",
          if speak then tts r else none) := by
  simp [handle_text, hq, hr, Except.map]

/-- C1 witness: the spec scenario — empty history, speech disabled,
generation stub returning the scenario reply yields the
one-turn history and null audio. -/
theorem C1_witness :
    handle_text (fun _ => Except.ok ("Focus on what you control.")) (fun _ => none)
        "How do I deal with stress?" (some []) false
      = Except.ok
          (some [("How do I deal with stress?", "Focus on what you control.")],
           "", none) :=
  C1_submitText_appends_one_turn
    (fun _ => Except.ok ("Focus on what you control.")) (fun _ => none)
    "How do I deal with stress?" (some []) false
    ("Focus on what you control.") (by decide) rfl

/-- C2: `buildMsgs` produces exactly one system message with the
persona instructions, then one user and one assistant message per
prior turn in original order reproducing its fields verbatim, then the
final user message; `llm` invokes the capability with that full ordered
sequence and returns the stripped text of its single top response.
The second-call scenario is the two-turn instance: the prompt for a
second utterance reproduces the first turn, after the system message
and before the new user message. -/
theorem C2_llm_prompt_structure
    (complete : List ChatMsg → Except PipelineError String)
    (msg : String) (hist : History) :
    buildMsgs msg hist
        = [ChatMsg.mk Role.system SYSTEM]
            ++ hist.flatMap
                (fun t => [ChatMsg.mk Role.user t.1, ChatMsg.mk Role.assistant t.2])
            ++ [ChatMsg.mk Role.user msg]
      ∧ llm complete msg hist
          = (complete
                ([ChatMsg.mk Role.system SYSTEM]
                  ++ hist.flatMap
                      (fun t => [ChatMsg.mk Role.user t.1, ChatMsg.mk Role.assistant t.2])
                  ++ [ChatMsg.mk Role.user msg])).map strip
      ∧ ∀ u1 a1 u2 : String,
          buildMsgs u2 [(u1, a1)]
            = [ChatMsg.mk Role.system SYSTEM, ChatMsg.mk Role.user u1,
               ChatMsg.mk Role.assistant a1, ChatMsg.mk Role.user u2] := by
  have hb : buildMsgs msg hist
      = [ChatMsg.mk Role.system SYSTEM]
          ++ hist.flatMap
              (fun t => [ChatMsg.mk Role.user t.1, ChatMsg.mk Role.assistant t.2])
          ++ [ChatMsg.mk Role.user msg] := by
    simp [buildMsgs, buildMsgs_foldl_eq, List.append_assoc]
  refine ⟨hb, ?_, ?_⟩
  · rw [llm, hb]
  · intro u1 a1 u2
    simp [buildMsgs]

/-- C3: when decoding fails (`UnsupportedAudioFormat`) or transcription
fails (`TranscriptionFailed`), `handle_audio` aborts the turn and
appends exactly one fixed fallback turn: the same `fallbackTurn` in
both cases, the history length grows by exactly one, and the appended
assistant field is the fixed apology text. -/
theorem C3_fallback_on_audio_errors
    (from_file : String → Except PipelineError AudioSegment)
    (transcribe : AudioSegment → Except PipelineError String)
    (complete : List ChatMsg → Except PipelineError String)
    (tts : String → Option String)
    (normName fp : String) (hist : Option History) (speak : Bool)
    (h : from_file fp = Except.error PipelineError.unsupportedAudioFormat
         ∨ ∃ seg, from_file fp = Except.ok seg
             ∧ transcribe (set_frame_rate 16000 (set_channels 1 seg))
                 = Except.error PipelineError.transcriptionFailed) :
    (handle_audio from_file transcribe complete tts normName (some fp) hist speak).hist
        = some (hist.getD [] ++ [fallbackTurn])
      ∧ ((handle_audio from_file transcribe complete tts normName
            (some fp) hist speak).hist.getD []).length
          = (hist.getD []).length + 1
      ∧ fallbackTurn.2
          = "I apologize, but I couldn\x27t process your audio. Please try again." := by
  rcases h with h | ⟨seg, hfp, htr⟩
  · refine ⟨?_, ?_, rfl⟩ <;> simp [handle_audio, downsample, h, Except.map]
  · refine ⟨?_, ?_, rfl⟩ <;> simp [handle_audio, downsample, hfp, htr, Except.map]

/-- C3 witness: a decode failure on a concrete clip appends exactly
the fallback turn to the empty history. -/
theorem C3_witness :
    (handle_audio (fun _ => Except.error PipelineError.unsupportedAudioFormat)
        (fun _ => Except.ok ("x")) (fun _ => Except.ok ("y")) (fun _ => none)
        "norm.wav" (some ("clip.webm")) (some []) false).hist
        = some ([] ++ [fallbackTurn])
      ∧ (((handle_audio (fun _ => Except.error PipelineError.unsupportedAudioFormat)
            (fun _ => Except.ok ("x")) (fun _ => Except.ok ("y")) (fun _ => none)
            "norm.wav" (some ("clip.webm")) (some []) false).hist.getD []).length
          = ([] : History).length + 1)
      ∧ fallbackTurn.2
          = "I apologize, but I couldn\x27t process your audio. Please try again." :=
  C3_fallback_on_audio_errors
    (fun _ => Except.error PipelineError.unsupportedAudioFormat)
    (fun _ => Except.ok ("x")) (fun _ => Except.ok ("y")) (fun _ => none)
    "norm.wav" "clip.webm" (some []) false (Or.inl rfl)

/-- C4: blank text input, a null audio clip, and a transcript that is
blank after stripping are all silent no-ops: no turn is appended, and
the history is passed back (for the blank-transcript path the source
returns the `hist or []` rebinding, i.e. the same turn list). -/
theorem C4_silent_noops
    (complete : List ChatMsg → Except PipelineError String)
    (tts : String → Option String)
    (from_file : String → Except PipelineError AudioSegment)
    (transcribe : AudioSegment → Except PipelineError String)
    (normName q fp txt : String) (seg : AudioSegment)
    (hist : Option History) (speak : Bool)
    (hq : (strip q).isEmpty = true)
    (hfp : from_file fp = Except.ok seg)
    (htx : transcribe (set_frame_rate 16000 (set_channels 1 seg)) = Except.ok txt)
    (hblank : (strip txt).isEmpty = true) :
    handle_text complete tts q hist speak = Except.ok (hist, "", none)
      ∧ handle_audio from_file transcribe complete tts normName none hist speak
          = AudioOutcome.mk hist none []
      ∧ handle_audio from_file transcribe complete tts normName (some fp) hist speak
          = AudioOutcome.mk (some (hist.getD [])) none [] := by
  refine ⟨?_, rfl, ?_⟩
  · simp [handle_text, hq]
  · simp [handle_audio, downsample, hfp, htx, hblank, Except.map]

/-- C4 witness: blank input `" "`, a null clip, and a whitespace-only
transcript all leave the history `[("a", "b")]` untouched. -/
theorem C4_witness :
    handle_text (fun _ => Except.ok ("y")) (fun _ => none) " " (some [("a", "b")]) false
        = Except.ok (some [("a", "b")], "", none)
      ∧ handle_audio (fun _ => Except.ok (AudioSegment.mk 1 48000))
          (fun _ => Except.ok ("  ")) (fun _ => Except.ok ("y")) (fun _ => none)
          "norm.wav" none (some [("a", "b")]) false
          = AudioOutcome.mk (some [("a", "b")]) none []
      ∧ handle_audio (fun _ => Except.ok (AudioSegment.mk 1 48000))
          (fun _ => Except.ok ("  ")) (fun _ => Except.ok ("y")) (fun _ => none)
          "norm.wav" (some ("clip.webm")) (some [("a", "b")]) false
          = AudioOutcome.mk (some [("a", "b")]) none [] :=
  C4_silent_noops (fun _ => Except.ok ("y")) (fun _ => none)
    (fun _ => Except.ok (AudioSegment.mk 1 48000)) (fun _ => Except.ok ("  "))
    "norm.wav" " " "clip.webm" "  " (AudioSegment.mk 1 48000)
    (some [("a", "b")]) false (by decide) rfl rfl (by decide)

/-- C5 counterexample: one always-failing generation capability, two
entry points, two different outcomes.  `handle_text` surfaces the
exception to the caller with the history unchanged, while
`handle_audio` catches it and appends the fallback turn — so neither
of the two uniform policies claimed (both surface, or both append)
holds. -/
theorem C5_counterexample :
    handle_text (fun _ => Except.error PipelineError.generationFailed)
        (fun _ => none) "Hello" (some []) false
      = Except.error PipelineError.generationFailed
    ∧ (handle_audio (fun _ => Except.ok (AudioSegment.mk 1 48000))
          (fun _ => Except.ok ("Hello"))
          (fun _ => Except.error PipelineError.generationFailed)
          (fun _ => none) "norm.wav" (some ("clip.webm")) (some []) false).hist
        = some [fallbackTurn] := ⟨rfl, rfl⟩

/-- C5 amended: on `GenerationFailed` the two entry points follow
different policies — `handle_text` propagates the error without
mutating history, while `handle_audio` appends the fallback turn
(and also leaves the normalized temp file behind). -/
theorem C5_amended_policies_differ
    (complete : List ChatMsg → Except PipelineError String)
    (tts : String → Option String)
    (from_file : String → Except PipelineError AudioSegment)
    (transcribe : AudioSegment → Except PipelineError String)
    (normName q fp txt : String) (seg : AudioSegment)
    (hist : Option History) (speak : Bool) (e e2 : PipelineError)
    (hq : (strip q).isEmpty = false)
    (hg : complete (buildMsgs q (hist.getD [])) = Except.error e)
    (hfp : from_file fp = Except.ok seg)
    (htx : transcribe (set_frame_rate 16000 (set_channels 1 seg)) = Except.ok txt)
    (htb : (strip txt).isEmpty = false)
    (hg2 : complete (buildMsgs txt (hist.getD [])) = Except.error e2) :
    handle_text complete tts q hist speak = Except.error e
      ∧ handle_audio from_file transcribe complete tts normName (some fp) hist speak
          = AudioOutcome.mk (some (hist.getD [] ++ [fallbackTurn])) none [normName] := by
  constructor
  · simp [handle_text, hq, llm, hg, Except.map]
  · simp [handle_audio, downsample, hfp, htx, htb, llm, hg2, Except.map]

/-- C5 witness for the amended statement: concrete failing generator,
concrete clip. -/
theorem C5_witness :
    handle_text (fun _ => Except.error PipelineError.generationFailed)
        (fun _ => none) "Hi" (some []) false
      = Except.error PipelineError.generationFailed
    ∧ handle_audio (fun _ => Except.ok (AudioSegment.mk 1 48000))
        (fun _ => Except.ok ("Hi"))
        (fun _ => Except.error PipelineError.generationFailed)
        (fun _ => none) "norm.wav" (some ("clip.webm")) (some []) false
        = AudioOutcome.mk (some ([] ++ [fallbackTurn])) none ["norm.wav"] :=
  C5_amended_policies_differ
    (fun _ => Except.error PipelineError.generationFailed) (fun _ => none)
    (fun _ => Except.ok (AudioSegment.mk 1 48000)) (fun _ => Except.ok ("Hi"))
    "norm.wav" "Hi" "clip.webm" "Hi" (AudioSegment.mk 1 48000) (some []) false
    PipelineError.generationFailed PipelineError.generationFailed
    (by decide) rfl rfl rfl (by decide) rfl

/-- C6: `text_to_speech` never raises (it is a total function into
`Option`): it returns `none` when the key is missing or empty, when
the HTTP post raises or times out, and on any non-200 response; and a
`none` synthesis result never aborts an otherwise-successful text
turn — the turn is still appended and returned with null audio even
with speech enabled. -/
theorem C6_tts_never_raises
    (key : Option String) (post : String → Option (Nat × String))
    (outName text : String) (st : Nat × String)
    (complete : List ChatMsg → Except PipelineError String)
    (q : String) (hist : Option History) (r : String)
    (hst : st.1 ≠ 200)
    (hq : (strip q).isEmpty = false)
    (hr : llm complete q (hist.getD []) = Except.ok r) :
    text_to_speech none post outName text = none
      ∧ text_to_speech (some ("")) post outName text = none
      ∧ text_to_speech key (fun _ => none) outName text = none
      ∧ text_to_speech key (fun _ => some st) outName text = none
      ∧ handle_text complete (fun _ => none) q hist true
          = Except.ok (some (hist.getD [] ++ [(q, r)]), "", none) := by
  refine ⟨rfl, rfl, ?_, ?_, ?_⟩
  · unfold text_to_speech
    split <;> rfl
  · unfold text_to_speech
    split
    · rfl
    · simp [hst]
  · simp [handle_text, hq, hr, Except.map]

/-- C6 witness: a configured key with a 500 response, an unconfigured
key, a raising post, and a successful turn with synthesis unavailable. -/
theorem C6_witness :
    text_to_speech none (fun _ => some (200, "c")) "out.mp3" "Hi" = none
      ∧ text_to_speech (some ("")) (fun _ => some (200, "c")) "out.mp3" "Hi" = none
      ∧ text_to_speech (some ("k")) (fun _ => none) "out.mp3" "Hi" = none
      ∧ text_to_speech (some ("k")) (fun _ => some (500, "err")) "out.mp3" "Hi" = none
      ∧ handle_text (fun _ => Except.ok ("r")) (fun _ => none) "Hi" (some []) true
          = Except.ok (some ([] ++ [("Hi", "r")]), "", none) :=
  C6_tts_never_raises (some ("k")) (fun _ => some (200, "c")) "out.mp3" "Hi"
    (500, "err") (fun _ => Except.ok ("r")) "Hi" (some []) "r"
    (by decide) (by decide) rfl

/-- Helper for C7: appending zero turns or one turn with a non-blank
user field keeps the old turns as an unchanged prefix, grows the
length by at most one, and every appended turn has a non-blank user
field. -/
theorem history_append_step (h0 l : History)
    (hl : l = [] ∨ ∃ t : Turn, l = [t] ∧ (strip t.1).isEmpty = false) :
    (h0 ++ l).take h0.length = h0
      ∧ (h0 ++ l).length ≤ h0.length + 1
      ∧ ((h0 ++ l).drop h0.length).all (fun t => !(strip t.1).isEmpty) = true := by
  rcases hl with rfl | ⟨t, rfl, ht⟩
  · simp
  · simp [List.take_left, List.drop_left, ht]

/-- C7 counterexample: a generation capability returning blank text
makes `handle_text` append a turn whose assistant field is the empty
string — so the claim that every counted turn has both fields non-empty fails. -/
theorem C7_counterexample :
    handle_text (fun _ => Except.ok (" ")) (fun _ => none) "hi" (some []) false
        = Except.ok (some [("hi", "")], "", none)
      ∧ (("hi", "") : Turn).2.isEmpty = true := ⟨rfl, rfl⟩

/-- C7 amended: every call to either entry point leaves the prior
turns unchanged as a prefix and appends at most one turn at the end
(so history length grows monotonically and nothing is modified,
reordered or deleted), and every appended turn has a non-blank user
field; the fallback turn has both fields non-blank, but the appended
assistant field is the stripped generator output and can be empty. -/
theorem C7_amended_history_monotone
    (complete : List ChatMsg → Except PipelineError String)
    (tts : String → Option String)
    (from_file : String → Except PipelineError AudioSegment)
    (transcribe : AudioSegment → Except PipelineError String)
    (normName q : String) (file : Option String)
    (hist : Option History) (speak : Bool)
    (oh : Option History) (os : String) (oa : Option String)
    (htext : handle_text complete tts q hist speak = Except.ok (oh, os, oa)) :
    ((oh.getD []).take (hist.getD []).length = hist.getD []
      ∧ (oh.getD []).length ≤ (hist.getD []).length + 1
      ∧ ((oh.getD []).drop (hist.getD []).length).all
          (fun t => !(strip t.1).isEmpty) = true)
    ∧ (((handle_audio from_file transcribe complete tts normName file hist
            speak).hist.getD []).take (hist.getD []).length = hist.getD []
      ∧ ((handle_audio from_file transcribe complete tts normName file hist
            speak).hist.getD []).length ≤ (hist.getD []).length + 1
      ∧ (((handle_audio from_file transcribe complete tts normName file hist
            speak).hist.getD []).drop (hist.getD []).length).all
          (fun t => !(strip t.1).isEmpty) = true)
    ∧ (strip fallbackTurn.1).isEmpty = false
    ∧ (strip fallbackTurn.2).isEmpty = false := by
  have hfb1 : (strip fallbackTurn.1).isEmpty = false := by decide
  refine ⟨?_, ?_, hfb1, by decide⟩
  · by_cases hq : (strip q).isEmpty = true
    · have hoh : oh = hist := by
        simp [handle_text, hq] at htext
        exact htext.1.symm
      subst hoh
      simp
    · cases hr : complete (buildMsgs q (hist.getD [])) with
      | error e => simp [handle_text, hq, llm, hr, Except.map] at htext
      | ok r =>
        have hoh : oh = some (hist.getD [] ++ [(q, strip r)]) := by
          simp [handle_text, hq, llm, hr, Except.map] at htext
          exact htext.1.symm
        subst hoh
        simpa using history_append_step (hist.getD []) [(q, strip r)]
          (Or.inr ⟨(q, strip r), rfl, by simpa using hq⟩)
  · cases file with
    | none =>
      simp [handle_audio]
    | some fp =>
      cases hfp : from_file fp with
      | error e =>
        simpa [handle_audio, downsample, hfp, Except.map] using
          history_append_step (hist.getD []) [fallbackTurn]
            (Or.inr ⟨fallbackTurn, rfl, hfb1⟩)
      | ok seg =>
        cases htr : transcribe (set_frame_rate 16000 (set_channels 1 seg)) with
        | error e =>
          simpa [handle_audio, downsample, hfp, htr, Except.map] using
            history_append_step (hist.getD []) [fallbackTurn]
              (Or.inr ⟨fallbackTurn, rfl, hfb1⟩)
        | ok txt =>
          by_cases htb : (strip txt).isEmpty = true
          · simp [handle_audio, downsample, hfp, htr, htb, Except.map]
          · cases hg : complete (buildMsgs txt (hist.getD [])) with
            | error e =>
              simpa [handle_audio, downsample, hfp, htr, htb, llm, hg,
                  Except.map] using
                history_append_step (hist.getD []) [fallbackTurn]
                  (Or.inr ⟨fallbackTurn, rfl, hfb1⟩)
            | ok r =>
              simp [handle_audio, downsample, hfp, htr, htb, llm, hg,
                Except.map]

/-- C7 witness for the amended statement: a successful text turn on
history `[("a", "b")]` and a null-clip audio call. -/
theorem C7_witness :
    (((some [("a", "b"), ("hi", "r")] : Option History).getD []).take
          ((some [("a", "b")] : Option History).getD []).length
        = (some [("a", "b")] : Option History).getD []
      ∧ ((some [("a", "b"), ("hi", "r")] : Option History).getD []).length
          ≤ ((some [("a", "b")] : Option History).getD []).length + 1
      ∧ (((some [("a", "b"), ("hi", "r")] : Option History).getD []).drop
            ((some [("a", "b")] : Option History).getD []).length).all
          (fun t => !(strip t.1).isEmpty) = true)
    ∧ (((handle_audio (fun _ => Except.ok (AudioSegment.mk 1 16000))
            (fun _ => Except.ok ("x")) (fun _ => Except.ok ("r")) (fun _ => none)
            "n" none (some [("a", "b")]) false).hist.getD []).take
          ((some [("a", "b")] : Option History).getD []).length
        = (some [("a", "b")] : Option History).getD []
      ∧ ((handle_audio (fun _ => Except.ok (AudioSegment.mk 1 16000))
            (fun _ => Except.ok ("x")) (fun _ => Except.ok ("r")) (fun _ => none)
            "n" none (some [("a", "b")]) false).hist.getD []).length
          ≤ ((some [("a", "b")] : Option History).getD []).length + 1
      ∧ (((handle_audio (fun _ => Except.ok (AudioSegment.mk 1 16000))
            (fun _ => Except.ok ("x")) (fun _ => Except.ok ("r")) (fun _ => none)
            "n" none (some [("a", "b")]) false).hist.getD []).drop
            ((some [("a", "b")] : Option History).getD []).length).all
          (fun t => !(strip t.1).isEmpty) = true)
    ∧ (strip fallbackTurn.1).isEmpty = false
    ∧ (strip fallbackTurn.2).isEmpty = false :=
  C7_amended_history_monotone (fun _ => Except.ok ("r")) (fun _ => none)
    (fun _ => Except.ok (AudioSegment.mk 1 16000)) (fun _ => Except.ok ("x"))
    "n" "hi" none (some [("a", "b")]) false
    (some [("a", "b"), ("hi", "r")]) "" none rfl

/-- C8: for every decodable input, `downsample` outputs a
single-channel, 16 kHz segment; and re-normalizing an
already-canonical segment returns it identically. -/
theorem C8_normalized_format
    (from_file : String → Except PipelineError AudioSegment)
    (fp : String) (seg : AudioSegment)
    (h : from_file fp = Except.ok seg) :
    downsample from_file fp = Except.ok (AudioSegment.mk 1 16000)
      ∧ (downsample from_file fp).map AudioSegment.channels = Except.ok 1
      ∧ (downsample from_file fp).map AudioSegment.frameRate = Except.ok 16000
      ∧ (seg = AudioSegment.mk 1 16000 → downsample from_file fp = Except.ok seg) := by
  have hd : downsample from_file fp = Except.ok (AudioSegment.mk 1 16000) := by
    simp [downsample, h, Except.map, set_channels, set_frame_rate]
  refine ⟨hd, ?_, ?_, ?_⟩
  · rw [hd]; rfl
  · rw [hd]; rfl
  · intro hc
    rw [hd, hc]

/-- C8 witness: a stereo 44.1 kHz clip is normalized to mono 16 kHz,
and normalizing an already-canonical clip returns it unchanged. -/
theorem C8_witness :
    downsample (fun _ => Except.ok (AudioSegment.mk 2 44100)) "clip.webm"
        = Except.ok (AudioSegment.mk 1 16000)
      ∧ downsample (fun _ => Except.ok (AudioSegment.mk 1 16000)) "canon.wav"
          = Except.ok (AudioSegment.mk 1 16000) :=
  ⟨(C8_normalized_format (fun _ => Except.ok (AudioSegment.mk 2 44100))
      "clip.webm" (AudioSegment.mk 2 44100) rfl).1,
   (C8_normalized_format (fun _ => Except.ok (AudioSegment.mk 1 16000))
      "canon.wav" (AudioSegment.mk 1 16000) rfl).2.2.2 rfl⟩

/-- C9 counterexample: two exit paths keep a transient file alive.
On a transcription failure the normalized wav file is still on disk
when `handle_audio` returns (the `except` handler does not remove it),
and on a successful pass with speech enabled the synthesized mp3 is
returned without ever being removed. -/
theorem C9_counterexample :
    (handle_audio (fun _ => Except.ok (AudioSegment.mk 2 44100))
        (fun _ => Except.error PipelineError.transcriptionFailed)
        (fun _ => Except.ok ("r")) (fun _ => none)
        "norm.wav" (some ("clip.webm")) (some []) false).tempFiles = ["norm.wav"]
      ∧ (handle_audio (fun _ => Except.ok (AudioSegment.mk 2 44100))
          (fun _ => Except.ok ("Hello")) (fun _ => Except.ok ("Reply"))
          (fun _ => some ("tts.mp3"))
          "norm.wav" (some ("clip.webm")) (some []) true).tempFiles
          = ["tts.mp3"] := ⟨rfl, rfl⟩

/-- C9 amended: the normalized wav file is removed on the success and
blank-transcript exit paths, but on a failure raised after
normalization succeeded (transcription or generation failure) it is
left behind, and the synthesized mp3 is handed to the caller without
removal. -/
theorem C9_amended_cleanup
    (from_file : String → Except PipelineError AudioSegment)
    (tr_ok tr_blank tr_fail : AudioSegment → Except PipelineError String)
    (complete : List ChatMsg → Except PipelineError String)
    (tts : String → Option String)
    (normName fp txt txtb r : String) (seg : AudioSegment)
    (hist : Option History) (speak : Bool)
    (hfp : from_file fp = Except.ok seg)
    (htx : tr_ok (set_frame_rate 16000 (set_channels 1 seg)) = Except.ok txt)
    (htb : (strip txt).isEmpty = false)
    (hg : complete (buildMsgs txt (hist.getD [])) = Except.ok r)
    (htxb : tr_blank (set_frame_rate 16000 (set_channels 1 seg)) = Except.ok txtb)
    (hb : (strip txtb).isEmpty = true)
    (htf : tr_fail (set_frame_rate 16000 (set_channels 1 seg))
        = Except.error PipelineError.transcriptionFailed) :
    (handle_audio from_file tr_ok complete tts normName (some fp) hist
        false).tempFiles = []
      ∧ (handle_audio from_file tr_ok complete tts normName (some fp) hist
            true).tempFiles = (tts (strip r)).toList
      ∧ (handle_audio from_file tr_blank complete tts normName (some fp) hist
            speak).tempFiles = []
      ∧ (handle_audio from_file tr_fail complete tts normName (some fp) hist
            speak).tempFiles = [normName] := by
  refine ⟨?_, ?_, ?_, ?_⟩ <;>
    simp [handle_audio, downsample, hfp, htx, htb, hg, htxb, hb, htf, llm,
      Except.map]

/-- C9 witness for the amended statement: concrete capabilities for the
four exit paths. -/
theorem C9_witness :
    (handle_audio (fun _ => Except.ok (AudioSegment.mk 2 44100))
        (fun _ => Except.ok ("Hello")) (fun _ => Except.ok ("Reply"))
        (fun _ => some ("tts.mp3")) "norm.wav" (some ("clip.webm")) (some [])
        false).tempFiles = []
      ∧ (handle_audio (fun _ => Except.ok (AudioSegment.mk 2 44100))
            (fun _ => Except.ok ("Hello")) (fun _ => Except.ok ("Reply"))
            (fun _ => some ("tts.mp3")) "norm.wav" (some ("clip.webm")) (some [])
            true).tempFiles = ((fun _ => some ("tts.mp3")) (strip ("Reply"))).toList
      ∧ (handle_audio (fun _ => Except.ok (AudioSegment.mk 2 44100))
            (fun _ => Except.ok (" ")) (fun _ => Except.ok ("Reply"))
            (fun _ => some ("tts.mp3")) "norm.wav" (some ("clip.webm")) (some [])
            false).tempFiles = []
      ∧ (handle_audio (fun _ => Except.ok (AudioSegment.mk 2 44100))
            (fun _ => Except.error PipelineError.transcriptionFailed)
            (fun _ => Except.ok ("Reply")) (fun _ => some ("tts.mp3")) "norm.wav"
            (some ("clip.webm")) (some []) false).tempFiles = ["norm.wav"] :=
  C9_amended_cleanup (fun _ => Except.ok (AudioSegment.mk 2 44100))
    (fun _ => Except.ok ("Hello")) (fun _ => Except.ok (" "))
    (fun _ => Except.error PipelineError.transcriptionFailed)
    (fun _ => Except.ok ("Reply")) (fun _ => some ("tts.mp3"))
    "norm.wav" "clip.webm" "Hello" " " "Reply" (AudioSegment.mk 2 44100)
    (some []) false rfl rfl (by decide) rfl rfl (by decide) rfl

/-- C10: a null history is accepted by both entry points and treated
as the empty history — a successful text or audio turn on a null
history returns a fresh one-turn history — while the blank-input and
null-clip no-op paths hand the null history back unchanged. -/
theorem C10_null_history
    (complete : List ChatMsg → Except PipelineError String)
    (tts : String → Option String)
    (from_file : String → Except PipelineError AudioSegment)
    (transcribe : AudioSegment → Except PipelineError String)
    (normName q qb fp txt r r2 : String) (seg : AudioSegment) (speak : Bool)
    (hq : (strip q).isEmpty = false)
    (hr : complete (buildMsgs q []) = Except.ok r)
    (hqb : (strip qb).isEmpty = true)
    (hfp : from_file fp = Except.ok seg)
    (htx : transcribe (set_frame_rate 16000 (set_channels 1 seg)) = Except.ok txt)
    (htb : (strip txt).isEmpty = false)
    (hr2 : complete (buildMsgs txt []) = Except.ok r2) :
    handle_text complete tts q none false
        = Except.ok (some [(q, strip r)], "", none)
      ∧ handle_audio from_file transcribe complete tts normName (some fp) none false
          = AudioOutcome.mk (some [(txt, strip r2)]) none []
      ∧ handle_text complete tts qb none speak = Except.ok (none, "", none)
      ∧ handle_audio from_file transcribe complete tts normName none none speak
          = AudioOutcome.mk none none [] := by
  refine ⟨?_, ?_, ?_, rfl⟩
  · simp [handle_text, hq, llm, hr, Except.map]
  · simp [handle_audio, downsample, hfp, htx, htb, llm, hr2, Except.map]
  · simp [handle_text, hqb]

/-- C10 witness: concrete calls with a null history. -/
theorem C10_witness :
    handle_text (fun _ => Except.ok ("Reply")) (fun _ => none) "Hi" none false
        = Except.ok (some [("Hi", strip ("Reply"))], "", none)
      ∧ handle_audio (fun _ => Except.ok (AudioSegment.mk 2 44100))
          (fun _ => Except.ok ("Spoken")) (fun _ => Except.ok ("Reply"))
          (fun _ => none) "norm.wav" (some ("clip.webm")) none false
          = AudioOutcome.mk (some [("Spoken", strip ("Reply"))]) none []
      ∧ handle_text (fun _ => Except.ok ("Reply")) (fun _ => none) " " none false
          = Except.ok (none, "", none)
      ∧ handle_audio (fun _ => Except.ok (AudioSegment.mk 2 44100))
          (fun _ => Except.ok ("Spoken")) (fun _ => Except.ok ("Reply"))
          (fun _ => none) "norm.wav" none none false
          = AudioOutcome.mk none none [] :=
  C10_null_history (fun _ => Except.ok ("Reply")) (fun _ => none)
    (fun _ => Except.ok (AudioSegment.mk 2 44100)) (fun _ => Except.ok ("Spoken"))
    "norm.wav" "Hi" " " "clip.webm" "Spoken" "Reply" "Reply"
    (AudioSegment.mk 2 44100) false
    (by decide) rfl (by decide) rfl rfl (by decide) rfl

end Plato
